import Mathlib

/-!
Verification development for the mtproto-rest repository.

The definitions below are a shallow embedding of the Python source:
`app/models.py` (phone / code / hash validation and deep-link synthesis),
`app/session_manager.py` (the session lifecycle manager) and
`app/routes/forward.py` (the message-forward endpoint).  Remote-network
effects (Telegram calls, client construction, file writes, random number
generation) are passed in explicitly as oracle values, so every definition
is executable and every operation is a pure function of its state, its
request and the oracle.
-/

/-! ### Character and string helpers (Python semantics, ASCII fragment)

Python's `\s` regex class and `str.strip()` also cover Unicode whitespace;
the repository only ever feeds ASCII phone numbers, codes and hashes, so we
model the ASCII whitespace set. -/

/-- The ASCII characters matched by Python's `\s` and stripped by `str.strip()`. -/
def isPyWs (c : Char) : Bool :=
  c == ' ' || c == '\t' || c == '\n' || c == '\r' || c == '\x0b' || c == '\x0c'

/-- Python `str.strip()` (ASCII fragment). -/
def pyStrip (s : String) : String :=
  ⟨((s.data.dropWhile isPyWs).reverse.dropWhile isPyWs).reverse⟩

/-- ASCII decimal digit, `[0-9]` (char codes 48–57). -/
def isDigitC (c : Char) : Bool :=
  decide (48 ≤ c.toNat) && decide (c.toNat ≤ 57)

/-- Nonzero ASCII decimal digit, `[1-9]` (char codes 49–57). -/
def isNonzeroC (c : Char) : Bool :=
  decide (49 ≤ c.toNat) && decide (c.toNat ≤ 57)

/-- Lowercase hex digit, the `[a-f0-9]` class of the phone-code-hash pattern. -/
def isLowerHex (c : Char) : Bool :=
  (decide (97 ≤ c.toNat) && decide (c.toNat ≤ 102)) || isDigitC c

/-- Python `str.lstrip('+')`: drop every leading `'+'`. -/
def stripPlusL : List Char → List Char
  | [] => []
  | c :: r => if c == '+' then stripPlusL r else c :: r

/-- Python `str.lstrip('@')`: drop every leading `'@'`. -/
def stripAtL : List Char → List Char
  | [] => []
  | c :: r => if c == '@' then stripAtL r else c :: r

/-- Python `str.strip('/')`: drop leading and trailing `'/'` characters. -/
def stripSlashesL (l : List Char) : List Char :=
  ((l.dropWhile (· == '/')).reverse.dropWhile (· == '/')).reverse

/-- Python `str.split('/')` on character lists (`acc` holds the current
segment, reversed). -/
def splitSlashAux : List Char → List Char → List (List Char)
  | [], acc => [acc.reverse]
  | c :: r, acc =>
    if c == '/' then acc.reverse :: splitSlashAux r [] else splitSlashAux r (c :: acc)

/-- Boolean list-level `String.startsWith`. -/
def isPrefixL : List Char → List Char → Bool
  | [], _ => true
  | _ :: _, [] => false
  | a :: as, b :: bs => a == b && isPrefixL as bs

/-! ### Phone-number normalization (`app/models.py`, `PhoneNumber.validate_phone`)

Source:
```
if isinstance(v, (int, float)): v = str(int(v))
v = re.sub(r'[\s-]', '', str(v))
if not PHONE_PATTERN.match(v): raise ValueError(...)
return '+' + v.lstrip('+')
```
with `PHONE_PATTERN = re.compile(r'^\+?[1-9]\d{1,14}$')`. -/

/-- External phone input: Python `Union[str, int]` (floats are first truncated
to `int` by the source; we model the integer form). -/
inductive PhoneInput where
  | str (s : String)
  | int (n : Int)

/-- `str(v)` for a phone input (`str(int(v))` for the numeric form). -/
def phoneInputStr : PhoneInput → String
  | .str s => s
  | .int n => toString n

/-- `re.sub(r'[\s-]', '', v)`. -/
def cleanPhone (s : String) : String :=
  ⟨s.data.filter (fun c => !(isPyWs c || c == '-'))⟩

/-- `[1-9]\d{1,14}` matched against a whole character list. -/
def phoneCore : List Char → Bool
  | [] => false
  | c :: rest =>
    isNonzeroC c && rest.all isDigitC && decide (1 ≤ rest.length)
      && decide (rest.length ≤ 14)

/-- `re.match(r'^\+?[1-9]\d{1,14}$', s)` as a Bool. -/
def phoneMatch (s : String) : Bool :=
  match s.data with
  | [] => false
  | c :: rest => if c == '+' then phoneCore rest else phoneCore (c :: rest)

/-- `PhoneNumber.validate_phone`: `some` of the canonical E.164 form, `none`
when pydantic raises `ValueError`. -/
def validate_phone (v : PhoneInput) : Option String :=
  if phoneMatch (cleanPhone (phoneInputStr v)) then
    some ⟨'+' :: stripPlusL (cleanPhone (phoneInputStr v)).data⟩
  else none

/-! ### Deep-link synthesis (`app/models.py`, `Chat.generate_chat_link`
and `Message.generate_message_link`) -/

/-- `Literal['private', 'group', 'channel']`. -/
inductive ChatType where
  | priv
  | group
  | channel
deriving DecidableEq

/-- Python truthiness of an optional string (`None` and `""` are falsy). -/
def truthyOptStr : Option String → Bool
  | none => false
  | some s => s != ""

/-- Python truthiness of an optional integer (`None` and `0` are falsy). -/
def truthyOptInt : Option Int → Bool
  | none => false
  | some n => n != 0

/-- Python `abs` on `int`. -/
def pyAbs (n : Int) : Int := if n < 0 then -n else n

/-- `Chat.generate_chat_link`.  The `values` dict is never empty when the
validator runs (the model has required fields), so the `if not values`
guard of the source is omitted.  `chat_id` is `values.get('chat_id')`,
hence optional here; in a validated `Chat` it is always present. -/
def generate_chat_link (chat_id : Option Int) (username : Option String)
    (ctype : ChatType) : String :=
  if truthyOptStr username then "https://t.me/" ++ username.getD ""
  else if !truthyOptInt chat_id then ""
  else
    match ctype with
    | .channel => "https://t.me/c/" ++ toString (pyAbs (chat_id.getD 0))
    | .priv => "tg://user?id=" ++ toString (chat_id.getD 0)
    | .group => "tg://chat?id=" ++ toString (chat_id.getD 0)

/-- The `Message._chat_info` dict: `chat_id`, `username` and `type` are read
with `.get`, so each may be absent. -/
structure ChatInfo where
  chat_id : Option Int
  username : Option String
  ctype : Option ChatType
deriving DecidableEq

/-- `Message.generate_message_link`.  Returns `none` where the source returns
`None`.  The source checks `not values.get('message_id')`, which is Python
truthiness, so `message_id = 0` also yields `None`. -/
def generate_message_link (chatInfo : Option ChatInfo) (message_id : Int) :
    Option String :=
  match chatInfo with
  | none => none
  | some chat =>
    if message_id == 0 then none
    else if truthyOptStr chat.username then
      some ("https://t.me/" ++ chat.username.getD "" ++ "/" ++ toString message_id)
    else if !truthyOptInt chat.chat_id then none
    else
      match chat.ctype with
      | some .channel =>
        some ("https://t.me/c/" ++ toString (pyAbs (chat.chat_id.getD 0)) ++ "/"
          ++ toString message_id)
      | some .priv =>
        some ("tg://openmessage?chat_id=" ++ toString (chat.chat_id.getD 0)
          ++ "&message_id=" ++ toString message_id)
      | _ =>
        some ("tg://openmessage?chat_id=" ++ toString (chat.chat_id.getD 0)
          ++ "&message_id=" ++ toString message_id)

/-! ### Verify-code request validation (`app/models.py`, `CodeVerification`) -/

/-- The code field: Python `Union[str, int]`. -/
inductive CodeInput where
  | str (s : String)
  | int (n : Int)

/-- `str(v)` for a code input. -/
def codeInputStr : CodeInput → String
  | .str s => s
  | .int n => toString n

/-- `CodeVerification.validate_code`: strip, require all digits, length 5. -/
def validate_code (v : CodeInput) : Option String :=
  let cs := pyStrip (codeInputStr v)
  if !cs.data.isEmpty && cs.data.all isDigitC && decide (cs.length = 5)
  then some cs else none

/-- `^[a-f0-9]+$` as a Bool. -/
def hashPattern (s : String) : Bool :=
  !s.data.isEmpty && s.data.all isLowerHex

/-- The `phone_code_hash` field.  Pydantic first enforces the `Field`
constraints `min_length=16` and `pattern=r'^[a-f0-9]+$'` on the raw value,
then runs `validate_hash`, which strips the value and re-checks
nonemptiness, the pattern and `len >= 16`. -/
def validate_hash (raw : String) : Option String :=
  if decide (16 ≤ raw.length) && hashPattern raw then
    if !(pyStrip raw == "") && hashPattern (pyStrip raw)
        && decide (16 ≤ (pyStrip raw).length)
    then some (pyStrip raw) else none
  else none

/-- A validated `CodeVerification` request body. -/
structure CodeVerificationData where
  phone_number : String
  code : String
  phone_code_hash : String
deriving DecidableEq

/-- Parsing a `CodeVerification` body: all three field validators must
succeed, otherwise FastAPI rejects the request (HTTP 422) before the route
handler — and hence before any network call — runs. -/
def parse_code_verification (p : PhoneInput) (c : CodeInput) (h : String) :
    Option CodeVerificationData :=
  match validate_phone p, validate_code c, validate_hash h with
  | some pn, some cd, some hh => some ⟨pn, cd, hh⟩
  | _, _, _ => none

/-! ### Session-manager state (`app/session_manager.py`, class `SessionManager`)

`SessionManager` owns three pieces of state: the in-memory session mapping
`self._sessions`, the live-client mapping `self._clients` and the durable
`sessions.json` file.  We model the two mappings as association lists with
unique keys and the file as the mapping it stores.  A live telethon client
object is identified by an opaque numeric handle. -/

/-- A `StoredSession` record (`app/models.py`): `session_string`, `user_id`
and `username` are each optional; a pending authentication has all three
set to `None`. -/
structure StoredSession where
  session_string : Option String
  user_id : Option Int
  username : Option String
deriving DecidableEq

/-- `SessionInfo` (`app/models.py`): the public projection of a completed
session. -/
structure SessionInfo where
  phone_number : String
  session_string : String
  user_id : Int
  username : Option String
deriving DecidableEq

/-- A raised `fastapi.HTTPException` with its status code and detail. -/
structure HTTPError where
  status : Nat
  detail : String
deriving DecidableEq

/-- Association-list lookup (Python `dict` read / `in` test). -/
def lookupKey {α : Type} (k : String) : List (String × α) → Option α
  | [] => none
  | (k2, v) :: rest => if k2 = k then some v else lookupKey k rest

/-- Association-list key removal (Python `del d[k]`). -/
def eraseKey {α : Type} (k : String) : List (String × α) → List (String × α)
  | [] => []
  | (k2, v) :: rest =>
    if k2 = k then eraseKey k rest else (k2, v) :: eraseKey k rest

/-- Association-list update (Python `d[k] = v`). -/
def setKey {α : Type} (k : String) (v : α) (l : List (String × α)) :
    List (String × α) :=
  (k, v) :: eraseKey k l

/-- The whole manager state.  `file` is the content of `sessions.json`. -/
structure SMState where
  sessions : List (String × StoredSession)
  clients : List (String × Nat)
  file : List (String × StoredSession)
deriving DecidableEq

/-- `SessionManager._cleanup_client`: disconnect and drop the live handle.
(When `disconnect` itself raises, the source logs and leaves the stale
entry behind; we model the normal path where disconnect succeeds.) -/
def cleanupClient (phone : String) (st : SMState) : SMState :=
  { st with clients := eraseKey phone st.clients }

/-- `SessionManager._save_sessions`: revalidates each record and rewrites
`sessions.json` wholesale.  Every exception is caught and logged, so a
failed write (`saveOk = false`) leaves the previous file intact and never
propagates to the caller.  The in-memory records were produced by the
validated mutation paths, so revalidation is the identity on them. -/
def saveSessions (saveOk : Bool) (st : SMState) : SMState :=
  if saveOk then { st with file := st.sessions } else st

/-- The pydantic `ValueError` raised by `PhoneNumber` validation, as the
HTTP error it surfaces as. -/
def invalidPhoneError : HTTPError :=
  ⟨422, "Invalid phone number format. Must be in E.164 format"⟩

/-- `complete_auth` / `complete_2fa` error for a phone with no live client:
`HTTPException(400, "No pending authentication found for this phone number")`. -/
def noActiveSessionError : HTTPError :=
  ⟨400, "No pending authentication found for this phone number"⟩

/-- `get_client` error for a phone without a completed record. -/
def sessionNotFoundError (np : String) : HTTPError :=
  ⟨404, "Session not found for " ++ np ++ ". Please authenticate first."⟩

/-- `str(FloodWaitError)` (telethon renders the required wait seconds into
the message). -/
def floodWaitMsg (seconds : Nat) : String :=
  "A wait of " ++ toString seconds ++ " seconds is required"

/-- Outcome of the remote `client.sign_in(phone, code, phone_code_hash=...)`
call inside `complete_auth`, together with the session blob
`StringSession.save(client.session)` exports on success. -/
inductive SignInResult where
  | ok (userId : Int) (username : Option String) (sessionString : String)
  | passwordNeeded
  | codeInvalid (msg : String)
  | floodWait (seconds : Nat)
  | otherError (msg : String)

/-- `SessionManager.complete_auth`.  `remote` is the outcome of the
`sign_in` network call (which consumes the code and hash), `saveOk` whether
the `_save_sessions` file write succeeds. -/
def complete_auth (st : SMState) (phone : PhoneInput)
    (_code _phoneCodeHash : String) (remote : SignInResult) (saveOk : Bool) :
    Except HTTPError SessionInfo × SMState :=
  match validate_phone phone with
  | none => (.error invalidPhoneError, st)
  | some np =>
    match lookupKey np st.clients with
    | none => (.error noActiveSessionError, st)
    | some _cid =>
      match remote with
      | .passwordNeeded =>
        -- needs_2fa is set, so the finally-block does NOT tear the client down
        (.error ⟨400, "2FA password required"⟩, st)
      | .codeInvalid msg =>
        (.error ⟨400, msg⟩, cleanupClient np st)
      | .floodWait s =>
        -- FloodWaitError has no dedicated handler: it falls through to the
        -- generic wrap, and the finally-block tears the client down
        (.error ⟨400, "Failed to complete authentication: " ++ floodWaitMsg s⟩,
          cleanupClient np st)
      | .otherError msg =>
        (.error ⟨400, "Failed to complete authentication: " ++ msg⟩,
          cleanupClient np st)
      | .ok uid uname sess =>
        let st2 := saveSessions saveOk
          { st with sessions := setKey np ⟨some sess, some uid, uname⟩ st.sessions }
        (.ok ⟨np, sess, uid, uname⟩, cleanupClient np st2)

/-- Outcome of the remote `client.sign_in(password=...)` call inside
`complete_2fa`. -/
inductive PasswordResult where
  | ok (userId : Int) (username : Option String) (sessionString : String)
  | floodWait (seconds : Nat)
  | err (msg : String)

/-- `SessionManager.complete_2fa`.  Its `finally` block always tears the
live client down, success or failure. -/
def complete_2fa (st : SMState) (phone : PhoneInput) (_password : String)
    (remote : PasswordResult) (saveOk : Bool) :
    Except HTTPError SessionInfo × SMState :=
  match validate_phone phone with
  | none => (.error invalidPhoneError, st)
  | some np =>
    match lookupKey np st.clients with
    | none => (.error noActiveSessionError, st)
    | some _cid =>
      match remote with
      | .ok uid uname sess =>
        let st2 := saveSessions saveOk
          { st with sessions := setKey np ⟨some sess, some uid, uname⟩ st.sessions }
        (.ok ⟨np, sess, uid, uname⟩, cleanupClient np st2)
      | .floodWait s =>
        (.error ⟨400, "Failed to complete 2FA: " ++ floodWaitMsg s⟩,
          cleanupClient np st)
      | .err msg =>
        (.error ⟨400, "Failed to complete 2FA: " ++ msg⟩, cleanupClient np st)

/-- The `SessionInfo.validate_session_phone` validator: pattern check (no
cleaning) and `'+' + v.lstrip('+')`. -/
def sessionInfoPhone (v : String) : Option String :=
  if phoneMatch v then some ⟨'+' :: stripPlusL v.data⟩ else none

/-- `SessionManager.list_sessions`: the list comprehension over
`self._sessions.items()` guarded by `if info.get("session_string")`
(Python truthiness: `None` and `""` are both excluded).  Constructing
`SessionInfo` re-validates the phone key and requires `user_id` to be a
present integer; a failing record raises out of the comprehension
(`Except.error`), which the route surfaces as HTTP 500. -/
def list_sessions : List (String × StoredSession) →
    Except String (List SessionInfo)
  | [] => .ok []
  | (phone, info) :: rest =>
    match info.session_string with
    | none => list_sessions rest
    | some s =>
      if s = "" then list_sessions rest
      else
        match validate_phone (.str phone), info.user_id with
        | some np, some uid =>
          match sessionInfoPhone np with
          | some np2 =>
            match list_sessions rest with
            | .ok l => .ok (⟨np2, s, uid, info.username⟩ :: l)
            | .error e => .error e
          | none => .error "session record failed SessionInfo validation"
        | _, _ => .error "session record failed SessionInfo validation"

/-- Outcome of `SessionManager._create_client` (construct + connect):
either a fresh connected handle or the message of the raised exception. -/
inductive CreateResult where
  | ok (cid : Nat)
  | fail (msg : String)

/-- `SessionManager.get_client`: requires a completed record (`session_string`
truthy), always tears down any existing live handle, then creates and
registers a fresh client from the persisted blob. -/
def get_client (st : SMState) (phone : PhoneInput) (create : CreateResult) :
    Except HTTPError Nat × SMState :=
  match validate_phone phone with
  | none => (.error invalidPhoneError, st)
  | some np =>
    match lookupKey np st.sessions with
    | none => (.error (sessionNotFoundError np), st)
    | some info =>
      match info.session_string with
      | none => (.error (sessionNotFoundError np), st)
      | some s =>
        if s = "" then (.error (sessionNotFoundError np), st)
        else
          let st1 := cleanupClient np st
          match create with
          | .ok cid => (.ok cid, { st1 with clients := setKey np cid st1.clients })
          | .fail msg =>
            (.error ⟨400, "Failed to create client: " ++ msg⟩, st1)

/-- `SessionManager.remove_session`. -/
def remove_session (st : SMState) (phone : PhoneInput) (saveOk : Bool) :
    Except HTTPError String × SMState :=
  match validate_phone phone with
  | none => (.error invalidPhoneError, st)
  | some np =>
    match lookupKey np st.sessions with
    | none => (.error ⟨404, "Session not found"⟩, st)
    | some _ =>
      let st1 := cleanupClient np st
      let st2 := saveSessions saveOk { st1 with sessions := eraseKey np st1.sessions }
      (.ok "Session removed successfully", st2)

/-- The remote effects of `SessionManager.start_auth`: client construction,
the `is_user_authorized` probe, the identity and exported blob when already
authorized, and the `send_code_request` outcome. -/
structure StartAuthWorld where
  create : CreateResult
  isAuthorized : Bool
  userId : Int
  username : Option String
  exportedSession : String
  sendCode : Except String String

/-- `SessionManager.start_auth`.  Note that in the source the phone-number
normalization happens inside the outer `try`, so its `ValueError` is
wrapped like every other failure. -/
def start_auth (st : SMState) (phone : PhoneInput) (w : StartAuthWorld)
    (saveOk : Bool) : Except HTTPError (String × Option String) × SMState :=
  match validate_phone phone with
  | none =>
    (.error ⟨400, "Failed to start authentication: " ++ invalidPhoneError.detail⟩, st)
  | some np =>
    if truthyOptStr ((lookupKey np st.sessions).bind (·.session_string)) then
      (.ok ("already_authorized", none), st)
    else
      let st1 := cleanupClient np st
      match w.create with
      | .fail msg =>
        (.error ⟨400, "Failed to start authentication: " ++ msg⟩, st1)
      | .ok cid =>
        if w.isAuthorized then
          let rec2 : StoredSession := ⟨some w.exportedSession, some w.userId, w.username⟩
          let st2 := saveSessions saveOk { st1 with sessions := setKey np rec2 st1.sessions }
          (.ok ("already_authorized", none), st2)
        else
          match w.sendCode with
          | .ok hash =>
            let st2 := { st1 with clients := setKey np cid st1.clients }
            let st3 := saveSessions saveOk
              { st2 with sessions := setKey np ⟨none, none, none⟩ st2.sessions }
            (.ok ("code_sent", some hash), st3)
          | .error msg =>
            -- the inner except tears the client down and re-raises
            (.error ⟨400, "Failed to start authentication: " ++ msg⟩,
              cleanupClient np st1)

/-! ### Message forwarding (`app/routes/forward.py`)

The route body runs under a single `try` whose `except Exception` clause
catches *every* exception — including the `HTTPException`s it raises itself
(FastAPI's `HTTPException` subclasses `Exception`) — and re-raises
`HTTPException(500, detail=str(e))`. -/

/-- A Python exception escaping the route body: either an `HTTPException`
(whose `str()` is `"{status_code}: {detail}"`, per Starlette) or any other
exception rendered by `str`. -/
inductive PyExc where
  | http (e : HTTPError)
  | other (msg : String)

/-- `str(e)` for an exception caught by the route's catch-all clause. -/
def renderPyExc : PyExc → String
  | .http e => toString e.status ++ ": " ++ e.detail
  | .other msg => msg

/-- Digits of a decimal literal folded to a `Nat`. -/
def digitsToNat (l : List Char) : Nat :=
  l.foldl (fun a c => a * 10 + (c.toNat - 48)) 0

/-- Python `int(str)`: optional surrounding whitespace, optional sign, then
a nonempty digit run (underscore digit grouping is not modelled; the
repository parses message-id path segments, which have none). -/
def pyInt (s : String) : Option Int :=
  let core : List Char → Option Nat := fun ds =>
    if !ds.isEmpty && ds.all isDigitC then some (digitsToNat ds) else none
  match (pyStrip s).data with
  | '+' :: ds => (core ds).map (fun n => (n : Int))
  | '-' :: ds => (core ds).map (fun n => -(n : Int))
  | ds => (core ds).map (fun n => (n : Int))

/-- `urlparse(link).path` for an `https://t.me/...` link: the characters
after the scheme and host (12 characters), cut at a query or fragment
separator. -/
def urlPathL (l : List Char) : List Char :=
  (l.drop 12).takeWhile (fun c => !(c == '?' || c == '#'))

/-- `ForwardRequest.validate_telegram_link`: parse a public message link
into `(username, message_id)`; `none` models the raised `ValueError`. -/
def validate_telegram_link (link : String) : Option (String × Int) :=
  let l : List Char := stripAtL link.data
  let parts : List (List Char) :=
    if isPrefixL "https://t.me/".data l then
      splitSlashAux (stripSlashesL (urlPathL l)) []
    else splitSlashAux l []
  match parts with
  | [u, midStr] =>
    match pyInt (String.mk midStr) with
    | some mid => some (String.mk u, mid)
    | none => none
  | _ => none

/-- `source_chat` / `destination_chat`: Python `Union[int, str]`. -/
inductive ChatRef where
  | int (n : Int)
  | str (s : String)
deriving DecidableEq

/-- A validated `ForwardRequest` body.  `source_phone` has already been
normalized by the model's validator.  The four boolean flags are passed
through to the remote call unchanged and do not affect control flow, so
they live in the oracle's `invoke`. -/
structure ForwardRequest where
  source_phone : String
  source_chat : ChatRef
  destination_chat : ChatRef
  message_ids : Option (List Int)
  message_links : Option (List String)

/-- Python truthiness of an optional list (`None` and `[]` are falsy). -/
def truthyOptList {α : Type} : Option (List α) → Bool
  | none => false
  | some l => !l.isEmpty

/-- The `for link in request.message_links` loop: parse each link, check it
names the same source chat, and append its message id.  When `source_chat`
was given as an integer, the first link's username replaces it. -/
def processLinks (sourceChat : ChatRef) (ids : List Int) :
    List String → Except PyExc (ChatRef × List Int)
  | [] => .ok (sourceChat, ids)
  | link :: rest =>
    match validate_telegram_link link with
    | none =>
      .error (.http ⟨400, "Invalid Telegram message link: " ++ String.mk (stripAtL link.data)⟩)
    | some (u, mid) =>
      match sourceChat with
      | .str sc =>
        if String.mk (stripAtL sc.data) ≠ u then
          .error (.http ⟨400, "All messages must be from the same chat"⟩)
        else processLinks (.str sc) (ids ++ [mid]) rest
      | .int _ => processLinks (.str u) (ids ++ [mid]) rest

/-- The message-collection phase of `forward_messages`: the
"no messages provided" guard followed by link processing. -/
def forwardIds (req : ForwardRequest) : Except PyExc (ChatRef × List Int) :=
  if !truthyOptList req.message_links && !truthyOptList req.message_ids then
    .error (.http ⟨400, "No messages to forward provided"⟩)
  else
    let ids0 := req.message_ids.getD []
    if truthyOptList req.message_links then
      processLinks req.source_chat ids0 (req.message_links.getD [])
    else .ok (req.source_chat, ids0)

/-- The remote effects of `forward_messages`: client creation (inside
`get_client`), the two `resolve_peer` calls and the batched
`ForwardMessages` invocation.  `invoke` receives the message ids and the
generated random ids and yields the result's updates, `some id` for an
update that carries a new message id.  `randInt` is the
`random.randint(1, 2**31 - 1)` stream.  The two `safe_join_chat` calls
swallow every exception and are stateless here, so they do not appear. -/
structure ForwardWorld where
  create : CreateResult
  resolveSource : Except String Unit
  resolveDest : Except String Unit
  invoke : List Int → List Int → Except String (List (Option Int))
  randInt : Nat → Int

/-- `forward_messages` (`POST /api/forward/messages`).  Returns the list of
newly created message ids on success.  Any exception raised in the body —
including the route's own `HTTPException`s — is re-raised by the catch-all
clause as `HTTPException(500, str(e))`.  The `finally` block tears down the
source client when `get_client` succeeded. -/
def forward_messages (st : SMState) (req : ForwardRequest) (w : ForwardWorld) :
    Except HTTPError (List Int) × SMState :=
  match get_client st (.str req.source_phone) w.create with
  | (.error e, st1) =>
    -- source_client was never bound, so the finally-block skips cleanup
    (.error ⟨500, renderPyExc (.http e)⟩, st1)
  | (.ok _cid, st1) =>
    let inner : Except PyExc (List Int) :=
      match forwardIds req with
      | .error e => .error e
      | .ok (_sc, ids) =>
        match w.resolveSource with
        | .error m => .error (.other m)
        | .ok _ =>
          match w.resolveDest with
          | .error m => .error (.other m)
          | .ok _ =>
            -- random_ids = [random.randint(1, 2**31 - 1) for _ in message_ids]
            match w.invoke ids ((List.range ids.length).map w.randInt) with
            | .error m => .error (.other m)
            | .ok updates =>
              if (updates.filterMap id).isEmpty then
                .error (.http ⟨404, "No messages were forwarded successfully"⟩)
              else .ok (updates.filterMap id)
    let res : Except HTTPError (List Int) :=
      match inner with
      | .ok r => .ok r
      | .error pe => .error ⟨500, renderPyExc pe⟩
    (res, cleanupClient req.source_phone st1)

/-! ### Helper lemmas -/

theorem string_mk_data (s : String) : String.mk s.data = s := rfl

/-- A digit is not equal to any character outside the code range 48–57. -/
theorem isDigitC_ne (c x : Char) (hx : x.toNat < 48 ∨ 57 < x.toNat)
    (h : isDigitC c = true) : (c == x) = false := by
  simp only [isDigitC, Bool.and_eq_true, decide_eq_true_eq] at h
  simp only [beq_eq_false_iff_ne, ne_eq]
  rintro rfl
  omega

/-- Digits survive the `[\s-]` cleaning of phone normalization. -/
theorem isDigitC_keep (c : Char) (h : isDigitC c = true) :
    (isPyWs c || c == '-') = false := by
  unfold isPyWs
  rw [isDigitC_ne c ' ' (by decide) h, isDigitC_ne c '\t' (by decide) h,
    isDigitC_ne c '\n' (by decide) h, isDigitC_ne c '\r' (by decide) h,
    isDigitC_ne c '\x0b' (by decide) h, isDigitC_ne c '\x0c' (by decide) h,
    isDigitC_ne c '-' (by decide) h]
  rfl

theorem isDigitC_ne_plus (c : Char) (h : isDigitC c = true) :
    (c == '+') = false :=
  isDigitC_ne c '+' (by decide) h

theorem isNonzeroC_isDigitC (c : Char) (h : isNonzeroC c = true) :
    isDigitC c = true := by
  simp only [isNonzeroC, Bool.and_eq_true, decide_eq_true_eq] at h
  simp only [isDigitC, Bool.and_eq_true, decide_eq_true_eq]
  omega

theorem stripPlusL_no_plus (c : Char) (r : List Char)
    (h : (c == '+') = false) : stripPlusL (c :: r) = c :: r := by
  unfold stripPlusL
  rw [h]
  simp

/-- The digit list certified by `phoneCore` starts with a nonzero digit and
consists of digits only. -/
theorem phoneCore_digits (l : List Char) (h : phoneCore l = true) :
    l.all isDigitC = true ∧ l ≠ [] := by
  cases l with
  | nil => exact absurd h (by decide)
  | cons c rest =>
    simp only [phoneCore, Bool.and_eq_true] at h
    refine ⟨?_, by simp⟩
    simp only [List.all_cons, Bool.and_eq_true]
    exact ⟨isNonzeroC_isDigitC c h.1.1.1, h.1.1.2⟩

theorem cleanPhone_eq_self (s : String)
    (h : ∀ c ∈ s.data, (isPyWs c || c == '-') = false) : cleanPhone s = s := by
  unfold cleanPhone
  have hf : s.data.filter (fun c => !(isPyWs c || c == '-')) = s.data := by
    apply List.filter_eq_self.mpr
    intro a ha
    rw [h a ha]
    rfl
  rw [hf, string_mk_data]

/-- `lstrip('+')` on a matched number removes exactly the single plus. -/
theorem stripPlusL_core (ds : List Char) (hds : phoneCore ds = true) :
    stripPlusL ds = ds := by
  obtain ⟨hall, hne⟩ := phoneCore_digits ds hds
  cases ds with
  | nil => exact absurd rfl hne
  | cons c r =>
    simp only [List.all_cons, Bool.and_eq_true] at hall
    exact stripPlusL_no_plus c r (isDigitC_ne_plus c hall.1)

/-- A string passing the E.164 pattern yields a `phoneCore`-certified digit
list after `lstrip('+')`. -/
theorem phoneMatch_strip (s : String) (h : phoneMatch s = true) :
    phoneCore (stripPlusL s.data) = true := by
  unfold phoneMatch at h
  revert h
  cases hd : s.data with
  | nil => intro h; exact absurd h (by decide)
  | cons c rest =>
    intro h
    change (if (c == '+') = true then phoneCore rest else phoneCore (c :: rest)) = true at h
    by_cases hc : (c == '+') = true
    · rw [if_pos hc] at h
      have hcp : c = '+' := by simpa using hc
      subst hcp
      unfold stripPlusL
      rw [if_pos (by decide), stripPlusL_core rest h]
      exact h
    · rw [if_neg hc] at h
      rw [stripPlusL_no_plus c rest (by simpa using hc)]
      exact h

/-- Canonical shape of every output of phone normalization: a `'+'`
followed by a `phoneCore`-certified digit list. -/
theorem validate_phone_shape (x : PhoneInput) (y : String)
    (h : validate_phone x = some y) :
    ∃ ds, y = String.mk ('+' :: ds) ∧ phoneCore ds = true := by
  unfold validate_phone at h
  split at h
  case isTrue hm =>
    exact ⟨stripPlusL (cleanPhone (phoneInputStr x)).data,
      (Option.some_inj.mp h).symm, phoneMatch_strip _ hm⟩
  case isFalse => exact absurd h (by simp)

/-- Normalized numbers are fixed points of the cleaning step. -/
theorem cleanPhone_canonical (ds : List Char) (hds : phoneCore ds = true) :
    cleanPhone (String.mk ('+' :: ds)) = String.mk ('+' :: ds) := by
  apply cleanPhone_eq_self
  intro c hc
  simp only [String.data] at hc
  rw [List.mem_cons] at hc
  rcases hc with hc | hc
  · subst hc; decide
  · exact isDigitC_keep c (List.all_eq_true.mp (phoneCore_digits ds hds).1 c hc)

/-- Normalized numbers match the E.164 pattern. -/
theorem phoneMatch_canonical (ds : List Char) (hds : phoneCore ds = true) :
    phoneMatch (String.mk ('+' :: ds)) = true := by
  unfold phoneMatch
  simp only [String.data]
  rw [if_pos (by decide)]
  exact hds

/-- `lstrip('+')` on a normalized number removes exactly the single plus. -/
theorem stripPlusL_canonical (ds : List Char) (hds : phoneCore ds = true) :
    stripPlusL ('+' :: ds) = ds := by
  unfold stripPlusL
  rw [if_pos (by decide), stripPlusL_core ds hds]

/-- Re-validating a normalized number yields it unchanged. -/
theorem validate_phone_canonical (ds : List Char) (hds : phoneCore ds = true) :
    validate_phone (.str (String.mk ('+' :: ds))) = some (String.mk ('+' :: ds)) := by
  unfold validate_phone phoneInputStr
  rw [cleanPhone_canonical ds hds, if_pos (phoneMatch_canonical ds hds)]
  simp only [String.data]
  rw [stripPlusL_canonical ds hds]

/-- The `SessionInfo` phone validator is the identity on normalized numbers. -/
theorem sessionInfoPhone_canonical (ds : List Char) (hds : phoneCore ds = true) :
    sessionInfoPhone (String.mk ('+' :: ds)) = some (String.mk ('+' :: ds)) := by
  unfold sessionInfoPhone
  rw [if_pos (phoneMatch_canonical ds hds)]
  simp only [String.data]
  rw [stripPlusL_canonical ds hds]

theorem lookupKey_eraseKey_self {α : Type} (k : String)
    (l : List (String × α)) : lookupKey k (eraseKey k l) = none := by
  induction l with
  | nil => rfl
  | cons kv rest ih =>
    obtain ⟨k2, v⟩ := kv
    unfold eraseKey
    by_cases hk : k2 = k
    · rw [if_pos hk]; exact ih
    · rw [if_neg hk]
      unfold lookupKey
      rw [if_neg hk]
      exact ih

theorem lookupKey_setKey_self {α : Type} (k : String) (v : α)
    (l : List (String × α)) : lookupKey k (setKey k v l) = some v := by
  unfold setKey lookupKey
  rw [if_pos rfl]

/-! ### Claim theorems -/

/-- Claim C8: phone-number normalization is idempotent — every output of
`validate_phone` is accepted unchanged when fed back in — and for every
valid number the digits-only string form, the `+`-prefixed string form and
the numeric-typed form all normalize to the identical canonical E.164
string with a single leading `+`. -/
theorem claim_C8_phone_normalization :
    (∀ (x : PhoneInput) (y : String), validate_phone x = some y →
      validate_phone (.str y) = some y) ∧
    (∀ (d : String) (n : Int), phoneCore d.data = true → toString n = d →
      validate_phone (.str d) = some (String.mk ('+' :: d.data)) ∧
      validate_phone (.str (String.mk ('+' :: d.data))) =
        some (String.mk ('+' :: d.data)) ∧
      validate_phone (.int n) = some (String.mk ('+' :: d.data))) := by
  constructor
  · intro x y h
    obtain ⟨ds, rfl, hds⟩ := validate_phone_shape x y h
    exact validate_phone_canonical ds hds
  · intro d n hd hn
    have hclean : cleanPhone d = d := by
      apply cleanPhone_eq_self
      intro c hc
      exact isDigitC_keep c (List.all_eq_true.mp (phoneCore_digits d.data hd).1 c hc)
    have hmatch : phoneMatch d = true := by
      unfold phoneMatch
      revert hd
      cases hdd : d.data with
      | nil => intro hd; exact absurd hd (by decide)
      | cons c rest =>
        intro hd
        show (if (c == '+') = true then phoneCore rest else phoneCore (c :: rest)) = true
        have hall := (phoneCore_digits (c :: rest) hd).1
        simp only [List.all_cons, Bool.and_eq_true] at hall
        rw [isDigitC_ne_plus c hall.1]
        simpa using hd
    refine ⟨?_, validate_phone_canonical d.data hd, ?_⟩
    · simp only [validate_phone, phoneInputStr]
      rw [hclean, if_pos hmatch, stripPlusL_core d.data hd]
    · simp only [validate_phone, phoneInputStr]
      rw [hn, hclean, if_pos hmatch, stripPlusL_core d.data hd]

/-- Witness for C8 at the number 12025550123: the digits-only form, the
`+`-prefixed form and the numeric form normalize to `"+12025550123"`, and
re-normalizing that output (idempotence) returns it unchanged. -/
theorem claim_C8_witness :
    validate_phone (.str "12025550123") = some "+12025550123" ∧
    validate_phone (.str "+12025550123") = some "+12025550123" ∧
    validate_phone (.int 12025550123) = some "+12025550123" := by
  obtain ⟨h1, _h2, h3⟩ :=
    claim_C8_phone_normalization.2 "12025550123" 12025550123 (by decide) (by decide)
  exact ⟨h1,
    claim_C8_phone_normalization.1 (.str "12025550123") "+12025550123" (by decide), h3⟩

/-- Claim C7, as stated, is false at `chat_id = 0`: the chat id is present
(the `Chat` model requires an integer) but Python's `if not chat_id:` guard
treats `0` as absent, so the chat link is `""` rather than
`https://t.me/c/0`; likewise a `message_id` of `0` yields no message link
at all. -/
theorem claim_C7_counterexample :
    generate_chat_link (some 0) none .channel = "" ∧
    "" ≠ "https://t.me/c/0" ∧
    generate_message_link (some ⟨some (-123456789), none, some .channel⟩) 0 = none := by
  exact ⟨rfl, by decide, rfl⟩

/-- Claim C7 (amended): for every channel chat with no username, a nonzero
chat id and a nonzero message id, the chat link is
`https://t.me/c/{abs(chat_id)}` and the message link is
`https://t.me/c/{abs(chat_id)}/{message_id}`. -/
theorem claim_C7_channel_links (cid mid : Int) (hc : cid ≠ 0) (hm : mid ≠ 0) :
    generate_chat_link (some cid) none .channel =
      "https://t.me/c/" ++ toString (pyAbs cid) ∧
    generate_message_link (some ⟨some cid, none, some .channel⟩) mid =
      some ("https://t.me/c/" ++ toString (pyAbs cid) ++ "/" ++ toString mid) := by
  constructor
  · simp [generate_chat_link, truthyOptStr, truthyOptInt, Option.getD, hc]
  · simp [generate_message_link, truthyOptStr, truthyOptInt, Option.getD, hc, hm]

/-- Witness for C7 (amended) at the spec's own instance
`chat_id = -123456789`: the links use the absolute value. -/
theorem claim_C7_witness :
    generate_chat_link (some (-123456789)) none .channel =
      "https://t.me/c/123456789" ∧
    generate_message_link (some ⟨some (-123456789), none, some .channel⟩) 42 =
      some "https://t.me/c/123456789/42" := by
  obtain ⟨h1, h2⟩ := claim_C7_channel_links (-123456789) 42 (by decide) (by decide)
  exact ⟨h1, h2⟩

/-- Claim C9: a verify-code request is rejected during (pure) model
validation — before the route handler and hence before any network call —
unless the trimmed `phone_code_hash` is at least 16 characters long and
consists only of lowercase hexadecimal digits. -/
theorem claim_C9_hash_validation (p : PhoneInput) (c : CodeInput) (h : String)
    (hbad : ¬(16 ≤ (pyStrip h).length ∧ (pyStrip h).data.all isLowerHex = true)) :
    parse_code_verification p c h = none := by
  have hh : validate_hash h = none := by
    unfold validate_hash
    split
    case isTrue hf =>
      split
      case isTrue hi =>
        exfalso
        apply hbad
        simp only [Bool.and_eq_true, decide_eq_true_eq] at hi
        obtain ⟨⟨_hne, hpat⟩, hlen⟩ := hi
        unfold hashPattern at hpat
        simp only [Bool.and_eq_true] at hpat
        exact ⟨hlen, hpat.2⟩
      case isFalse => rfl
    case isFalse => rfl
  cases hp : validate_phone p <;> cases hc2 : validate_code c <;>
    simp [parse_code_verification, hp, hc2, hh]

/-- Witness for C9: a request whose hash is `"XYZ"` (uppercase, short) is
rejected by validation for any phone and code. -/
theorem claim_C9_witness :
    parse_code_verification (.str "+12025550123") (.str "12345") "XYZ" = none :=
  claim_C9_hash_validation (.str "+12025550123") (.str "12345") "XYZ" (by decide)

/-- Claim C1, as stated, is false: a `FloodWaitError` during code
verification has no dedicated handler in `complete_auth`; it hits the
generic wrap, producing `HTTPException(400, "Failed to complete
authentication: ...")` — not a distinct `RateLimited` (429) error — and the
`finally` block tears the live client down, so the phone is no longer in
the live-handle map. -/
theorem claim_C1_counterexample :
    (complete_auth ⟨[("+12025550123", ⟨none, none, none⟩)], [("+12025550123", 0)], []⟩
        (.str "+12025550123") "12345" "8c78b8ee61f7a165b2" (.floodWait 30) true).fst =
      .error ⟨400, "Failed to complete authentication: A wait of 30 seconds is required"⟩ ∧
    lookupKey "+12025550123"
      (complete_auth ⟨[("+12025550123", ⟨none, none, none⟩)], [("+12025550123", 0)], []⟩
        (.str "+12025550123") "12345" "8c78b8ee61f7a165b2" (.floodWait 30) true).snd.clients =
      none := by
  exact ⟨rfl, rfl⟩

/-- Claim C1 (amended): a remote flood-wait signal during code verification
(`complete_auth`) or password verification (`complete_2fa`) surfaces as the
generic HTTP 400 failure whose message embeds the wait seconds (no distinct
`RateLimited`/429 error), and the live client handle is torn down — the
caller must restart from `start_auth`, not merely wait and retry. -/
theorem claim_C1_flood_generic_teardown (st : SMState) (phone : PhoneInput)
    (np : String) (cid : Nat) (code hash pw : String) (s : Nat) (saveOk : Bool)
    (hnorm : validate_phone phone = some np)
    (hcl : lookupKey np st.clients = some cid) :
    complete_auth st phone code hash (.floodWait s) saveOk =
      (.error ⟨400, "Failed to complete authentication: " ++ floodWaitMsg s⟩,
        cleanupClient np st) ∧
    lookupKey np (cleanupClient np st).clients = none ∧
    complete_2fa st phone pw (.floodWait s) saveOk =
      (.error ⟨400, "Failed to complete 2FA: " ++ floodWaitMsg s⟩,
        cleanupClient np st) := by
  refine ⟨?_, ?_, ?_⟩
  · simp [complete_auth, hnorm, hcl]
  · simp [cleanupClient, lookupKey_eraseKey_self]
  · simp [complete_2fa, hnorm, hcl]

/-- Witness for C1 (amended) at a concrete pending-password state. -/
theorem claim_C1_witness :
    complete_2fa ⟨[("+12025550123", ⟨none, none, none⟩)], [("+12025550123", 0)], []⟩
        (.str "+12025550123") "pw" (.floodWait 30) true =
      (.error ⟨400, "Failed to complete 2FA: A wait of 30 seconds is required"⟩,
        ⟨[("+12025550123", ⟨none, none, none⟩)], [], []⟩) :=
  (claim_C1_flood_generic_teardown
    ⟨[("+12025550123", ⟨none, none, none⟩)], [("+12025550123", 0)], []⟩
    (.str "+12025550123") "+12025550123" 0 "12345" "8c78b8ee61f7a165b2" "pw" 30 true
    rfl rfl).2.2

/-- Claim C2, as stated, is false: `_save_sessions` catches every exception
and only logs it, so when the durable write fails the mutating operation
still reports success.  Concretely, a successful code verification whose
file write fails (`saveOk = false`) returns the `SessionInfo` success value
while the file is left unchanged (empty here). -/
theorem claim_C2_counterexample :
    (complete_auth ⟨[("+12025550123", ⟨none, none, none⟩)], [("+12025550123", 0)], []⟩
        (.str "+12025550123") "12345" "8c78b8ee61f7a165b2"
        (.ok 7 none "SESSIONBLOB") false).fst =
      .ok ⟨"+12025550123", "SESSIONBLOB", 7, none⟩ ∧
    (complete_auth ⟨[("+12025550123", ⟨none, none, none⟩)], [("+12025550123", 0)], []⟩
        (.str "+12025550123") "12345" "8c78b8ee61f7a165b2"
        (.ok 7 none "SESSIONBLOB") false).snd.file = [] := by
  exact ⟨rfl, rfl⟩

theorem complete_auth_save_indep (st : SMState) (phone : PhoneInput)
    (code hash : String) (r : SignInResult) :
    (complete_auth st phone code hash r false).fst =
      (complete_auth st phone code hash r true).fst ∧
    (complete_auth st phone code hash r false).snd.sessions =
      (complete_auth st phone code hash r true).snd.sessions ∧
    (complete_auth st phone code hash r false).snd.clients =
      (complete_auth st phone code hash r true).snd.clients ∧
    (complete_auth st phone code hash r false).snd.file = st.file := by
  cases hv : validate_phone phone with
  | none => simp [complete_auth, hv]
  | some np =>
    cases hc : lookupKey np st.clients with
    | none => simp [complete_auth, hv, hc]
    | some cid =>
      cases r <;> simp [complete_auth, hv, hc, saveSessions, cleanupClient]

theorem complete_2fa_save_indep (st : SMState) (phone : PhoneInput)
    (pw : String) (r : PasswordResult) :
    (complete_2fa st phone pw r false).fst = (complete_2fa st phone pw r true).fst ∧
    (complete_2fa st phone pw r false).snd.sessions =
      (complete_2fa st phone pw r true).snd.sessions ∧
    (complete_2fa st phone pw r false).snd.clients =
      (complete_2fa st phone pw r true).snd.clients ∧
    (complete_2fa st phone pw r false).snd.file = st.file := by
  cases hv : validate_phone phone with
  | none => simp [complete_2fa, hv]
  | some np =>
    cases hc : lookupKey np st.clients with
    | none => simp [complete_2fa, hv, hc]
    | some cid =>
      cases r <;> simp [complete_2fa, hv, hc, saveSessions, cleanupClient]

theorem remove_session_save_indep (st : SMState) (phone : PhoneInput) :
    (remove_session st phone false).fst = (remove_session st phone true).fst ∧
    (remove_session st phone false).snd.sessions =
      (remove_session st phone true).snd.sessions ∧
    (remove_session st phone false).snd.clients =
      (remove_session st phone true).snd.clients ∧
    (remove_session st phone false).snd.file = st.file := by
  cases hv : validate_phone phone with
  | none => simp [remove_session, hv]
  | some np =>
    cases hs : lookupKey np st.sessions with
    | none => simp [remove_session, hv, hs]
    | some record => simp [remove_session, hv, hs, saveSessions, cleanupClient]

theorem start_auth_save_indep (st : SMState) (phone : PhoneInput)
    (w : StartAuthWorld) :
    (start_auth st phone w false).fst = (start_auth st phone w true).fst ∧
    (start_auth st phone w false).snd.sessions =
      (start_auth st phone w true).snd.sessions ∧
    (start_auth st phone w false).snd.clients =
      (start_auth st phone w true).snd.clients ∧
    (start_auth st phone w false).snd.file = st.file := by
  cases hv : validate_phone phone with
  | none => simp [start_auth, hv]
  | some np =>
    cases ht : truthyOptStr ((lookupKey np st.sessions).bind (·.session_string)) with
    | true => simp [start_auth, hv, ht]
    | false =>
      cases hcr : w.create with
      | fail msg => simp [start_auth, hv, ht, hcr, cleanupClient]
      | ok cid =>
        cases ha : w.isAuthorized with
        | true => simp [start_auth, hv, ht, hcr, ha, saveSessions, cleanupClient]
        | false =>
          cases hsc : w.sendCode with
          | ok hash => simp [start_auth, hv, ht, hcr, ha, hsc, saveSessions, cleanupClient]
          | error msg => simp [start_auth, hv, ht, hcr, ha, hsc, cleanupClient]

/-- Claim C2 (amended): when the durable write inside `_save_sessions`
fails, the failure is caught and logged rather than reported — every
save-triggering mutation (`start_auth`, `complete_auth`, `complete_2fa`,
`remove_session`) returns exactly the same outcome and leaves exactly the
same in-memory state as when the write succeeds, with only the durable
file left stale — and the process does not crash (every operation is a
total function of its inputs). -/
theorem claim_C2_persistence_failure (st : SMState) (phone : PhoneInput)
    (code hash pw : String) (r1 : SignInResult) (r2 : PasswordResult)
    (w : StartAuthWorld) :
    ((complete_auth st phone code hash r1 false).fst =
        (complete_auth st phone code hash r1 true).fst ∧
      (complete_auth st phone code hash r1 false).snd.sessions =
        (complete_auth st phone code hash r1 true).snd.sessions ∧
      (complete_auth st phone code hash r1 false).snd.clients =
        (complete_auth st phone code hash r1 true).snd.clients ∧
      (complete_auth st phone code hash r1 false).snd.file = st.file) ∧
    ((complete_2fa st phone pw r2 false).fst =
        (complete_2fa st phone pw r2 true).fst ∧
      (complete_2fa st phone pw r2 false).snd.sessions =
        (complete_2fa st phone pw r2 true).snd.sessions ∧
      (complete_2fa st phone pw r2 false).snd.clients =
        (complete_2fa st phone pw r2 true).snd.clients ∧
      (complete_2fa st phone pw r2 false).snd.file = st.file) ∧
    ((remove_session st phone false).fst = (remove_session st phone true).fst ∧
      (remove_session st phone false).snd.sessions =
        (remove_session st phone true).snd.sessions ∧
      (remove_session st phone false).snd.clients =
        (remove_session st phone true).snd.clients ∧
      (remove_session st phone false).snd.file = st.file) ∧
    ((start_auth st phone w false).fst = (start_auth st phone w true).fst ∧
      (start_auth st phone w false).snd.sessions =
        (start_auth st phone w true).snd.sessions ∧
      (start_auth st phone w false).snd.clients =
        (start_auth st phone w true).snd.clients ∧
      (start_auth st phone w false).snd.file = st.file) :=
  ⟨complete_auth_save_indep st phone code hash r1,
    complete_2fa_save_indep st phone pw r2,
    remove_session_save_indep st phone,
    start_auth_save_indep st phone w⟩

/-- Claim C3: when the remote signals that a password is additionally
required, `complete_auth` raises the `2fa_required` outcome
(`HTTPException(400, "2FA password required")`), leaves the state — in
particular the live client handle — untouched, and a following
`complete_2fa` for the same phone with the correct password succeeds:
it returns the `SessionInfo` with the fetched identity, and the completed
record (exported session blob included) is stored in memory and in the
durable file. -/
theorem claim_C3_twofa_preserves_client (st : SMState) (phone : PhoneInput)
    (np : String) (cid : Nat) (code hash pw sess : String) (uid : Int)
    (uname : Option String) (saveOk : Bool)
    (hnorm : validate_phone phone = some np)
    (hcl : lookupKey np st.clients = some cid) :
    complete_auth st phone code hash .passwordNeeded saveOk =
      (.error ⟨400, "2FA password required"⟩, st) ∧
    lookupKey np st.clients = some cid ∧
    (complete_2fa st phone pw (.ok uid uname sess) true).fst =
      .ok ⟨np, sess, uid, uname⟩ ∧
    lookupKey np (complete_2fa st phone pw (.ok uid uname sess) true).snd.sessions =
      some ⟨some sess, some uid, uname⟩ ∧
    lookupKey np (complete_2fa st phone pw (.ok uid uname sess) true).snd.file =
      some ⟨some sess, some uid, uname⟩ ∧
    lookupKey np (complete_2fa st phone pw (.ok uid uname sess) true).snd.clients =
      none := by
  refine ⟨?_, hcl, ?_, ?_, ?_, ?_⟩
  · simp [complete_auth, hnorm, hcl]
  · simp [complete_2fa, hnorm, hcl]
  · simp [complete_2fa, hnorm, hcl, saveSessions, cleanupClient,
      lookupKey_setKey_self]
  · simp [complete_2fa, hnorm, hcl, saveSessions, cleanupClient,
      lookupKey_setKey_self]
  · simp [complete_2fa, hnorm, hcl, saveSessions, cleanupClient,
      lookupKey_eraseKey_self]

/-- Witness for C3 at a concrete pending state with a live client. -/
theorem claim_C3_witness :
    complete_auth ⟨[("+12025550123", ⟨none, none, none⟩)], [("+12025550123", 9)], []⟩
        (.str "+12025550123") "12345" "8c78b8ee61f7a165b2" .passwordNeeded true =
      (.error ⟨400, "2FA password required"⟩,
        ⟨[("+12025550123", ⟨none, none, none⟩)], [("+12025550123", 9)], []⟩) ∧
    (complete_2fa ⟨[("+12025550123", ⟨none, none, none⟩)], [("+12025550123", 9)], []⟩
        (.str "+12025550123") "hunter2" (.ok 7 (some "alice") "SESSIONBLOB") true).fst =
      .ok ⟨"+12025550123", "SESSIONBLOB", 7, some "alice"⟩ := by
  have h := claim_C3_twofa_preserves_client
    ⟨[("+12025550123", ⟨none, none, none⟩)], [("+12025550123", 9)], []⟩
    (.str "+12025550123") "+12025550123" 9 "12345" "8c78b8ee61f7a165b2" "hunter2"
    "SESSIONBLOB" 7 (some "alice") true rfl rfl
  exact ⟨h.1, h.2.2.1⟩

/-- Claim C4: when the remote rejects the verification code as invalid or
expired, `complete_auth` surfaces the error (HTTP 400 with the provider's
message) and tears the live client down; a following `complete_auth` call
for the same phone, without an intervening `start_auth`, fails with the
`NoActiveSession` error ("No pending authentication found for this phone
number") whatever the remote would have answered. -/
theorem claim_C4_invalid_code_teardown (st : SMState) (phone : PhoneInput)
    (np : String) (cid : Nat) (code hash msg code2 hash2 : String)
    (remote2 : SignInResult) (saveOk saveOk2 : Bool)
    (hnorm : validate_phone phone = some np)
    (hcl : lookupKey np st.clients = some cid) :
    complete_auth st phone code hash (.codeInvalid msg) saveOk =
      (.error ⟨400, msg⟩, cleanupClient np st) ∧
    lookupKey np (cleanupClient np st).clients = none ∧
    complete_auth (cleanupClient np st) phone code2 hash2 remote2 saveOk2 =
      (.error noActiveSessionError, cleanupClient np st) := by
  have hgone : lookupKey np (cleanupClient np st).clients = none := by
    simp [cleanupClient, lookupKey_eraseKey_self]
  refine ⟨?_, hgone, ?_⟩
  · simp [complete_auth, hnorm, hcl]
  · simp [complete_auth, hnorm, hgone]

/-- Witness for C4 at a concrete pending state with a live client. -/
theorem claim_C4_witness :
    complete_auth ⟨[("+12025550123", ⟨none, none, none⟩)], [("+12025550123", 4)], []⟩
        (.str "+12025550123") "99999" "8c78b8ee61f7a165b2"
        (.codeInvalid "The confirmation code has expired") true =
      (.error ⟨400, "The confirmation code has expired"⟩,
        ⟨[("+12025550123", ⟨none, none, none⟩)], [], []⟩) ∧
    complete_auth ⟨[("+12025550123", ⟨none, none, none⟩)], [], []⟩
        (.str "+12025550123") "12345" "8c78b8ee61f7a165b2"
        (.ok 7 none "SESSIONBLOB") true =
      (.error noActiveSessionError,
        ⟨[("+12025550123", ⟨none, none, none⟩)], [], []⟩) := by
  have h := claim_C4_invalid_code_teardown
    ⟨[("+12025550123", ⟨none, none, none⟩)], [("+12025550123", 4)], []⟩
    (.str "+12025550123") "+12025550123" 4 "99999" "8c78b8ee61f7a165b2"
    "The confirmation code has expired" "12345" "8c78b8ee61f7a165b2"
    (.ok 7 none "SESSIONBLOB") true true rfl rfl
  exact ⟨h.1, h.2.2⟩

/-- Claim C10: a phone number whose record is pending (record present,
`session_string` absent) fails `get_client` with exactly the same
`SessionNotFound` error — and the same unchanged state — as a phone number
with no record at all; the two are indistinguishable at the `get_client`
interface. -/
theorem claim_C10_pending_record (st : SMState) (phone : PhoneInput)
    (np : String) (record : StoredSession) (create : CreateResult)
    (hnorm : validate_phone phone = some np)
    (hrec : lookupKey np st.sessions = some record)
    (hpend : record.session_string = none) :
    get_client st phone create = (.error (sessionNotFoundError np), st) ∧
    get_client { st with sessions := eraseKey np st.sessions } phone create =
      (.error (sessionNotFoundError np),
        { st with sessions := eraseKey np st.sessions }) := by
  constructor
  · simp [get_client, hnorm, hrec, hpend]
  · simp [get_client, hnorm, lookupKey_eraseKey_self]

/-- Witness for C10: a concrete pending record and its absent-record
counterpart produce the identical error. -/
theorem claim_C10_witness :
    get_client ⟨[("+12025550123", ⟨none, none, none⟩)], [], []⟩
        (.str "+12025550123") (.ok 5) =
      (.error (sessionNotFoundError "+12025550123"),
        ⟨[("+12025550123", ⟨none, none, none⟩)], [], []⟩) ∧
    get_client ⟨[], [], []⟩ (.str "+12025550123") (.ok 5) =
      (.error (sessionNotFoundError "+12025550123"), ⟨[], [], []⟩) := by
  have h := claim_C10_pending_record
    ⟨[("+12025550123", ⟨none, none, none⟩)], [], []⟩
    (.str "+12025550123") "+12025550123" ⟨none, none, none⟩ (.ok 5) rfl rfl rfl
  exact ⟨h.1, h.2⟩

/-- The projection of a session store to its public view: records whose
blob is a present, non-empty string, mapped to `SessionInfo`. -/
def completedProjection (sessions : List (String × StoredSession)) :
    List SessionInfo :=
  sessions.filterMap (fun pi =>
    match pi.2.session_string, pi.2.user_id with
    | some s, some uid =>
      if s = "" then none else some ⟨pi.1, s, uid, pi.2.username⟩
    | _, _ => none)

/-- Claim C6, as stated, is false: the filter `if info.get("session_string")`
uses Python truthiness, so a record whose blob is *present* but equal to the
empty string — a value `StoredSession` validation accepts — is excluded from
`list_sessions` even though it is not pending (its blob is not absent). -/
theorem claim_C6_counterexample :
    list_sessions [("+12025550123", ⟨some "", some 1, none⟩)] = .ok [] ∧
    (⟨some "", some 1, none⟩ : StoredSession).session_string ≠ none := by
  exact ⟨rfl, by decide⟩

/-- Claim C6 (amended): for every store state whose keys are normalized
phone numbers and whose non-empty-blob records carry a user id,
`list_sessions` returns exactly the records whose blob is present *and
non-empty*, projected to the public view; pending records (blob absent)
and empty-string-blob records are excluded. -/
theorem claim_C6_list_sessions (sessions : List (String × StoredSession))
    (hkeys : ∀ p info, (p, info) ∈ sessions → validate_phone (.str p) = some p)
    (huid : ∀ p info, (p, info) ∈ sessions →
      info.session_string ≠ none → info.session_string ≠ some "" →
      info.user_id ≠ none) :
    list_sessions sessions = .ok (completedProjection sessions) := by
  induction sessions with
  | nil => rfl
  | cons pi rest ih =>
    obtain ⟨p, info⟩ := pi
    have hkey : validate_phone (.str p) = some p := hkeys p info (by simp)
    have ihr := ih (fun p2 info2 hm => hkeys p2 info2 (by simp [hm]))
      (fun p2 info2 hm => huid p2 info2 (by simp [hm]))
    cases hss : info.session_string with
    | none => simp [list_sessions, completedProjection, List.filterMap_cons, hss, ihr]
    | some s =>
      by_cases hse : s = ""
      · subst hse
        cases hui : info.user_id with
        | none =>
          simp [list_sessions, completedProjection, List.filterMap_cons, hss, hui, ihr]
        | some uid =>
          simp [list_sessions, completedProjection, List.filterMap_cons, hss, hui, ihr]
      · cases hui : info.user_id with
        | none =>
          exact absurd hui
            (huid p info (by simp) (by simp [hss]) (by simp [hss, hse]))
        | some uid =>
          obtain ⟨ds, hp, hds⟩ := validate_phone_shape _ _ hkey
          have hsip : sessionInfoPhone p = some p := by
            rw [hp]; exact sessionInfoPhone_canonical ds hds
          simp [list_sessions, completedProjection, List.filterMap_cons, hss,
            hse, hkey, hui, hsip, ihr]

/-- Witness for C6 (amended): a store with one completed and one pending
record lists exactly the completed one. -/
theorem claim_C6_witness :
    list_sessions
      [("+12025550123", ⟨some "SESSIONBLOB", some 7, some "alice"⟩),
       ("+441632960961", ⟨none, none, none⟩)] =
    .ok [⟨"+12025550123", "SESSIONBLOB", 7, some "alice"⟩] := by
  have h := claim_C6_list_sessions
    [("+12025550123", ⟨some "SESSIONBLOB", some 7, some "alice"⟩),
     ("+441632960961", ⟨none, none, none⟩)]
    (by
      intro p info hm
      simp only [List.mem_cons, List.not_mem_nil, or_false, Prod.mk.injEq] at hm
      rcases hm with ⟨rfl, rfl⟩ | ⟨rfl, rfl⟩
      · decide
      · decide)
    (by
      intro p info hm
      simp only [List.mem_cons, List.not_mem_nil, or_false, Prod.mk.injEq] at hm
      rcases hm with ⟨rfl, rfl⟩ | ⟨rfl, rfl⟩
      · intro _ _; decide
      · intro hne _; exact absurd rfl hne)
  exact h

/-- Claim C5, as stated, is false: when the batched forward produces zero
new message ids the route raises `HTTPException(404, "No messages were
forwarded successfully")`, but its own `except Exception` clause catches
that exception and re-raises `HTTPException(500, str(e))`, so the caller
observes a 500 internal error (whose detail embeds the 404 message) rather
than the `NotFound` outcome — though indeed not success. -/
theorem claim_C5_counterexample :
    (forward_messages ⟨[("+12025550123", ⟨some "SESSIONBLOB", some 1, none⟩)], [], []⟩
        ⟨"+12025550123", .int 10, .str "dest", some [1, 2], none⟩
        ⟨.ok 3, .ok (), .ok (), fun _ _ => .ok [none], fun _ => 7⟩).fst =
      .error ⟨500, "404: No messages were forwarded successfully"⟩ ∧
    (500 : Nat) ≠ 404 := by
  exact ⟨rfl, by decide⟩

/-- Claim C5 (amended): for every forward request that reaches the batched
invocation (client obtained, messages collected, peers resolved) and gets
back updates carrying zero new message ids, the operation reports an error
— never success — namely the HTTP 500 produced by the catch-all clause
re-wrapping the internal 404 ("No messages were forwarded successfully"). -/
theorem claim_C5_zero_forwarded (st : SMState) (req : ForwardRequest)
    (w : ForwardWorld) (cid : Nat) (st1 : SMState) (sc : ChatRef)
    (ids : List Int) (updates : List (Option Int))
    (hgc : get_client st (.str req.source_phone) w.create = (.ok cid, st1))
    (hids : forwardIds req = .ok (sc, ids))
    (hrs : w.resolveSource = .ok ())
    (hrd : w.resolveDest = .ok ())
    (hinv : w.invoke ids ((List.range ids.length).map w.randInt) = .ok updates)
    (hzero : updates.filterMap id = []) :
    (forward_messages st req w).fst =
      .error ⟨500, "404: No messages were forwarded successfully"⟩ := by
  unfold forward_messages
  rw [hgc]
  simp only [hids, hrs, hrd, hinv, hzero, List.isEmpty_nil, renderPyExc, if_true]
  rfl

/-- Witness for C5 (amended) at a concrete request whose batched forward
returns a single id-less update. -/
theorem claim_C5_witness :
    (forward_messages ⟨[("+12025550123", ⟨some "SESSIONBLOB", some 1, none⟩)], [], []⟩
        ⟨"+12025550123", .str "chan", .str "dest", some [11], none⟩
        ⟨.ok 4, .ok (), .ok (), fun _ _ => .ok [], fun _ => 5⟩).fst =
      .error ⟨500, "404: No messages were forwarded successfully"⟩ :=
  claim_C5_zero_forwarded
    ⟨[("+12025550123", ⟨some "SESSIONBLOB", some 1, none⟩)], [], []⟩
    ⟨"+12025550123", .str "chan", .str "dest", some [11], none⟩
    ⟨.ok 4, .ok (), .ok (), fun _ _ => .ok [], fun _ => 5⟩
    4 ⟨[("+12025550123", ⟨some "SESSIONBLOB", some 1, none⟩)],
       [("+12025550123", 4)], []⟩
    (.str "chan") [11] [] rfl rfl rfl rfl rfl rfl
